import Mathlib

/-!
Shallow embedding of `src/dylib.cpp` (the POSIX build: the `#if` branches
that compile when neither `_WIN32` nor `_WIN64` is defined, so the
file-descriptor member `m_fd` and the POSIX reader signature are present).

Native handles and symbol addresses are modelled as `Nat` (a non-null
pointer value); a null pointer is `Option.none`.  File descriptors are
`Int` (the POSIX `open` return value; negative means failure, `-1` means
"no descriptor held").  The external collaborators of the translation
unit — the platform loader (`dlopen`/`dlsym`), the POSIX `open` call, the
external symbol-table reader `get_symbols` and the demangler
`get_demangled_name` — are fields of an environment structure `Platform`,
so every theorem quantifies over their behaviour.  C++ exceptions are
modelled with `Except`: each member function returns
`Except DylibError α`.

Diagnostic strings follow the source text; the platform diagnostic that
`get_error_description()` appends is modelled by the abstract
`Platform.lastError` string.
-/

/-- The four error kinds thrown by `dylib.cpp`: `std::invalid_argument`,
`std::logic_error`, `dylib::load_error`, `dylib::symbol_error`. -/
inductive DylibError where
  | invalid_argument (msg : String)
  | logic_error (msg : String)
  | load_error (msg : String)
  | symbol_error (msg : String)
deriving DecidableEq, Repr

/-- The data members of a `dylib` object on POSIX: `m_handle` (null =
not loaded / moved-from) and `m_fd` (the backing file descriptor, `-1` =
absent). -/
structure DylibSt where
  m_handle : Option Nat
  m_fd : Int
deriving DecidableEq, Repr

/-- Modelled from the spec: the header `dylib.hpp` is not under `src/`,
so the `symbol_params` configuration it declares is taken from the spec,
which fixes exactly two independent boolean switches, `demangle` and
`loadable`. -/
structure symbol_params where
  demangle : Bool
  loadable : Bool
deriving DecidableEq, Repr

/-- Modelled from the spec: the default arguments of `symbol_params` live
in the missing header.  The fallback path of `get_symbol` demangles raw
names itself, so the enumeration it performs returns raw mangled names
with both switches off. -/
def default_params : symbol_params := ⟨false, false⟩

/-- The external collaborators of `dylib.cpp`, plus the platform filename
decoration pair.  `pfx`/`sfx` model `filename_components::prefix` and
`filename_components::suffix` (declared in the missing header; the spec
fixes only that decoration wraps the logical name with a platform
prefix/suffix pair).  `open_lib` models `dlopen` (`none` = null handle),
`open_file` models POSIX `open(path, O_RDONLY)`, `locate_symbol` models
`dlsym` against a non-null handle, `get_symbols` is the external
symbol-table reader (which may raise a textual error, modelled as
`Except String`), `get_demangled_name` is the demangler (empty string =
failure), and `lastError` abstracts `get_error_description()`. -/
structure Platform where
  pfx : String
  sfx : String
  open_lib : String → Option Nat
  open_file : String → Int
  locate_symbol : Nat → String → Option Nat
  get_symbols : Option Nat → Int → Bool → Bool → Except String (List String)
  get_demangled_name : String → String
  lastError : String

/-- Last character is the path separator.  For a non-empty `p` this is
exactly the constructor's test
`final_path.find_last_of('/') == final_path.size() - 1` (the last
occurrence of `'/'` sits at the last position iff the last character is
`'/'`; `find_last_of` returns `npos ≠ size()-1` when no `'/'` occurs). -/
def endsWithSlash (p : String) : Bool := p.data.getLast? == some '/'

/-- Path composition of the constructor (lines 95-104): decorate the name
when requested, append a `'/'` to a non-empty directory that does not
already end with one, and concatenate. -/
def compose_path (P : Platform) (dir_path lib_name : String) (decorations : Bool) : String :=
  let final_name := if decorations then P.pfx ++ lib_name ++ P.sfx else lib_name
  let final_path := if !(dir_path == "") && !endsWithSlash dir_path
                    then dir_path ++ "/" else dir_path
  final_path ++ final_name

/-- Outcome of running the constructor `dylib::dylib(const char*, const
char*, bool)`.  `result` is the constructed state or the escaped
exception.  `loader_calls` records, in order, every path passed to
`open_lib` (the platform loader).  `leaked_handles` records handles that
were acquired but are owned by nobody after the constructor exits: when a
C++ constructor throws, the object's destructor never runs (only
fully-constructed members are destroyed, and the raw `m_handle` member
has no destructor), so a handle the constructor neither closed nor
handed to a completed object is leaked. -/
structure CtorOutcome where
  result : Except DylibError DylibSt
  leaked_handles : List Nat
  loader_calls : List String
deriving Repr

/-- The constructor (lines 91-115, POSIX build).  Null `dir_path` or
`lib_name` throws `std::invalid_argument`; a null handle from the loader
throws `load_error`; after a successful load, `open` of the same path is
attempted and a negative descriptor throws `load_error("Could not read
library file")` — at that point the code closes nothing and the
destructor will never run, so the loaded handle is recorded as leaked. -/
def dylib_ctor (P : Platform) (dir_path lib_name : Option String)
    (decorations : Bool) : CtorOutcome :=
  match dir_path, lib_name with
  | some d, some l =>
    let full := compose_path P d l decorations
    match P.open_lib full with
    | none =>
      ⟨.error (.load_error ("Could not load library '" ++ full ++ "'\n" ++ P.lastError)),
       [], [full]⟩
    | some h =>
      let fd := P.open_file full
      if fd < 0 then
        ⟨.error (.load_error "Could not read library file"), [h], [full]⟩
      else
        ⟨.ok ⟨some h, fd⟩, [], [full]⟩
  | _, _ => ⟨.error (.invalid_argument "Null parameter"), [], []⟩

/-- The destructor (lines 117-124): returns the handles and descriptors
it releases from a given state (`close_lib` when the handle is non-null,
`close` when `m_fd > -1`). -/
def dylib_dtor (st : DylibSt) : List Nat × List Int :=
  (match st.m_handle with | some h => [h] | none => [],
   if st.m_fd > -1 then [st.m_fd] else [])

/-- The move constructor (lines 80-83).  Returns (new object, source
afterwards).  The member-initializer list copies only `m_handle` and the
body nulls `other.m_handle`; `other.m_fd` is untouched.  Modelled from
the spec for the one fact the missing header decides: the new object's
`m_fd` takes the header's default member initializer, which the spec
fixes as `-1` ("-1 means absent"). -/
def dylib_move_ctor (other : DylibSt) : DylibSt × DylibSt :=
  (⟨other.m_handle, -1⟩, ⟨none, other.m_fd⟩)

/-- The move assignment operator (lines 85-89) acting on a store of
objects indexed by address: `if (this != &other) std::swap(m_handle,
other.m_handle)` — only the handles are swapped, the descriptors are
untouched, and self-assignment is guarded out. -/
def dylib_move_assign (mem : Nat → DylibSt) (this other : Nat) : Nat → DylibSt :=
  if this = other then mem
  else fun k =>
    if k = this then ⟨(mem other).m_handle, (mem this).m_fd⟩
    else if k = other then ⟨(mem this).m_handle, (mem other).m_fd⟩
    else mem k

/-- `dylib::symbols` (lines 214-227): forwards `m_handle` and `m_fd` to
the external reader with the two switches, with no check of the handle;
a textual error from the reader is caught and re-thrown as
`symbol_error`. -/
def dylib_symbols (P : Platform) (st : DylibSt) (params : symbol_params) :
    Except DylibError (List String) :=
  match P.get_symbols st.m_handle st.m_fd params.demangle params.loadable with
  | .ok l => .ok l
  | .error e => .error (.symbol_error e)

/-- The match test of the fallback loop (lines 146-148):
`demangled.find(symbol_name) == 0` (the requested name is a prefix of the
demangled form) and the character right after the prefix is `'('` or the
end of the string (`std::string::operator[]` at `size()` yields `'\0'`). -/
def demangled_matches (name demangled : String) : Bool :=
  demangled.take name.length == name &&
    (demangled.length == name.length || (demangled.drop name.length).take 1 == "(")

/-- The loop body's decision (lines 140-150): skip symbols whose
demangling fails (empty string), keep those whose demangled form passes
`demangled_matches`. -/
def symbol_filter (P : Platform) (name : String) (sym : String) : Bool :=
  let demangled := P.get_demangled_name sym
  !demangled.isEmpty && demangled_matches name demangled

/-- `dylib::get_symbol(const char*)` (lines 126-165).  Null name throws
`std::invalid_argument`; null handle throws `std::logic_error`; direct
resolution is tried first; on a null result the fallback enumerates
(via `symbols()`, whose failure propagates), filters by demangled match,
and dispatches on the number of matches. -/
def dylib_get_symbol (P : Platform) (st : DylibSt) (symbol_name : Option String) :
    Except DylibError Nat :=
  match symbol_name with
  | none => .error (.invalid_argument "Null parameter")
  | some name =>
    match st.m_handle with
    | none => .error (.logic_error "The dynamic library handle is null")
    | some h =>
      match P.locate_symbol h name with
      | some addr => .ok addr
      | none =>
        match dylib_symbols P st default_params with
        | .error e => .error e
        | .ok all_symbols =>
          match all_symbols.filter (symbol_filter P name) with
          | [] =>
            .error (.symbol_error
              ("Could not get symbol '" ++ name ++ "'\n" ++ P.lastError))
          | [m] =>
            match P.locate_symbol h m with
            | some addr => .ok addr
            | none =>
              .error (.symbol_error
                ("Could not get symbol '" ++ name ++ "'\n" ++ P.lastError))
          | _ =>
            .error (.symbol_error
              ("Could not get symbol '" ++ name ++ "': multiple matches"))

/-- `dylib::get_symbol(const std::string&)` (lines 196-198): forwards
`c_str()`, which is never null. -/
def dylib_get_symbol_str (P : Platform) (st : DylibSt) (symbol_name : String) :
    Except DylibError Nat :=
  dylib_get_symbol P st (some symbol_name)

/-- `dylib::get_symbol_by_offset` (lines 166-195).  Null handle throws
`std::logic_error`, a negative offset throws `std::invalid_argument`, and
otherwise the address `m_handle + offset` is returned unconditionally —
the cross-check against the symbol table is commented out in the source
(the `std::cout` trace on the success path has no effect on the result
and is not modelled). -/
def dylib_get_symbol_by_offset (st : DylibSt) (offset : Int) :
    Except DylibError Int :=
  match st.m_handle with
  | none => .error (.logic_error "The dynamic library handle is null")
  | some h =>
    if offset < 0 then .error (.invalid_argument "Offset cannot be negative")
    else .ok ((h : Int) + offset)

/-- `dylib::has_symbol(const char*)` (lines 200-204): `false` on a null
handle or null name, else whether direct resolution is non-null.  Total,
hence it never throws. -/
def dylib_has_symbol (P : Platform) (st : DylibSt) (symbol_name : Option String) : Bool :=
  match st.m_handle, symbol_name with
  | some h, some n => (P.locate_symbol h n).isSome
  | _, _ => false

/-- `dylib::has_symbol(const std::string&)` (lines 206-208): forwards
`c_str()`, never null. -/
def dylib_has_symbol_str (P : Platform) (st : DylibSt) (symbol_name : String) : Bool :=
  dylib_has_symbol P st (some symbol_name)

/-- A concrete environment for witnesses: a library at `dir/libfoo.so`
exporting one mangled symbol `mangled_add` whose demangled form is
`add(int, int)`. -/
def testP : Platform :=
  { pfx := "lib"
    sfx := ".so"
    open_lib := fun p => if p == "dir/libfoo.so" then some 4096 else none
    open_file := fun _ => 3
    locate_symbol := fun h n => if h == 4096 && n == "mangled_add" then some 5000 else none
    get_symbols := fun _ _ _ _ => .ok ["mangled_add", "junk"]
    get_demangled_name := fun s => if s == "mangled_add" then "add(int, int)" else ""
    lastError := "dlerror text" }

/-- A concrete environment where the loader succeeds but the read-only
`open` of the library file fails. -/
def leakP : Platform :=
  { testP with open_file := fun _ => -1 }

/-- A concrete environment whose symbol-table reader raises a textual
error. -/
def failP : Platform :=
  { testP with get_symbols := fun _ _ _ _ => .error "read failure" }

/-- A concrete two-object store for the move-assignment witness. -/
def memEx : Nat → DylibSt := fun k => if k = 0 then ⟨some 3, 4⟩ else ⟨some 7, 5⟩

/-- C1: the spec demands all-or-nothing construction — if the loader
succeeds but the read-only `open` fails, the claim says the loaded handle
is still released during unwind/cleanup with no leak.  The code violates
this: evaluated at a failing input (loader yields handle 4096 for
`dir/libfoo.so`, `open` returns -1), the constructor throws `load_error`
while the handle stays open with no owner — `~dylib` never runs for a
partially-constructed object and the constructor closes nothing before
throwing. -/
theorem dylib_C1_code_bug :
    (dylib_ctor leakP (some "dir") (some "foo") true).result =
      .error (.load_error "Could not read library file") ∧
    (dylib_ctor leakP (some "dir") (some "foo") true).leaked_handles = [4096] ∧
    dylib_dtor ⟨some 4096, -1⟩ = ([4096], []) := by
  refine ⟨?_, ?_, ?_⟩ <;> rfl

/-- C9: self-move-assignment (`this == &other`) is a no-op that leaves
every object's state — native handle and file descriptor — unchanged. -/
theorem dylib_C9_self_move_assign (mem : Nat → DylibSt) (i : Nat) :
    dylib_move_assign mem i i = mem := by
  simp [dylib_move_assign]

/-- C2 counterexample: the claim says move-construction leaves the source
cleared with no file descriptor (-1).  At source state
⟨handle 7, fd 5⟩ the moved-from object keeps fd 5. -/
theorem dylib_C2_counterexample :
    ¬ ((dylib_move_ctor ⟨some 7, 5⟩).2 = (⟨none, -1⟩ : DylibSt)) := by
  decide

/-- C2 amended: move-construction transfers only the native handle — the
new object's descriptor is the default -1 and the source keeps its
descriptor while its handle is nulled; move-assignment between distinct
objects swaps the two native handles (the source receives the
destination's previous handle, so it is not left null in general) and
leaves both descriptors unchanged. -/
theorem dylib_C2_move_transfers_handle_only (st : DylibSt) (mem : Nat → DylibSt)
    (i j : Nat) (hij : i ≠ j) :
    (dylib_move_ctor st).1 = ⟨st.m_handle, -1⟩ ∧
    (dylib_move_ctor st).2 = ⟨none, st.m_fd⟩ ∧
    dylib_move_assign mem i j i = ⟨(mem j).m_handle, (mem i).m_fd⟩ ∧
    dylib_move_assign mem i j j = ⟨(mem i).m_handle, (mem j).m_fd⟩ := by
  refine ⟨rfl, rfl, ?_, ?_⟩ <;>
    simp [dylib_move_assign, hij, Ne.symm hij]

/-- C2 witness: the amended move semantics at source ⟨handle 7, fd 5⟩ and
at the two-object store `memEx` with distinct indices 0 and 1. -/
theorem dylib_C2_move_witness :
    (dylib_move_ctor ⟨some 7, 5⟩).1 = ⟨some 7, -1⟩ ∧
    (dylib_move_ctor ⟨some 7, 5⟩).2 = ⟨none, 5⟩ ∧
    dylib_move_assign memEx 0 1 0 = ⟨(memEx 1).m_handle, (memEx 0).m_fd⟩ ∧
    dylib_move_assign memEx 0 1 1 = ⟨(memEx 0).m_handle, (memEx 1).m_fd⟩ := by
  have h := dylib_C2_move_transfers_handle_only ⟨some 7, 5⟩ memEx 0 1 (by decide)
  exact ⟨h.1, h.2.1, h.2.2.1, h.2.2.2⟩

/-- C4: offset resolution throws `std::logic_error` on a null handle,
`std::invalid_argument` on a negative offset, and otherwise returns
`m_handle + offset` unconditionally (no validation is performed — the
definition makes no call into the symbol table); in particular offset 0
returns exactly the base handle value. -/
theorem dylib_C4_offset_resolution (st : DylibSt) (offset : Int) :
    (st.m_handle = none →
      dylib_get_symbol_by_offset st offset =
        .error (.logic_error "The dynamic library handle is null")) ∧
    (∀ h, st.m_handle = some h → offset < 0 →
      dylib_get_symbol_by_offset st offset =
        .error (.invalid_argument "Offset cannot be negative")) ∧
    (∀ h, st.m_handle = some h → 0 ≤ offset →
      dylib_get_symbol_by_offset st offset = .ok ((h : Int) + offset)) ∧
    (∀ h, st.m_handle = some h →
      dylib_get_symbol_by_offset st 0 = .ok (h : Int)) := by
  obtain ⟨mh, mfd⟩ := st
  refine ⟨?_, ?_, ?_, ?_⟩
  · rintro rfl
    rfl
  · rintro h rfl hneg
    simp only [dylib_get_symbol_by_offset, if_pos hneg]
  · rintro h rfl hpos
    simp only [dylib_get_symbol_by_offset, if_neg (not_lt.mpr hpos)]
  · rintro h rfl
    simp [dylib_get_symbol_by_offset]

/-- C4 witness: concrete evaluations of all four branches — null handle,
negative offset, positive offset, and offset 0 on handle 4096. -/
theorem dylib_C4_offset_witness :
    dylib_get_symbol_by_offset ⟨none, -1⟩ 5 =
      .error (.logic_error "The dynamic library handle is null") ∧
    dylib_get_symbol_by_offset ⟨some 4096, 3⟩ (-2) =
      .error (.invalid_argument "Offset cannot be negative") ∧
    dylib_get_symbol_by_offset ⟨some 4096, 3⟩ 7 = .ok 4103 ∧
    dylib_get_symbol_by_offset ⟨some 4096, 3⟩ 0 = .ok 4096 := by
  refine ⟨(dylib_C4_offset_resolution ⟨none, -1⟩ 5).1 rfl,
          (dylib_C4_offset_resolution ⟨some 4096, 3⟩ (-2)).2.1 4096 rfl (by decide),
          ?_, ?_⟩
  · have h := (dylib_C4_offset_resolution ⟨some 4096, 3⟩ 7).2.2.1 4096 rfl (by decide)
    simpa using h
  · have h := (dylib_C4_offset_resolution ⟨some 4096, 3⟩ 0).2.2.2 4096 rfl
    simpa using h

/-- C5: for every environment and state, `get_symbol` on a null name
throws `std::invalid_argument`, and on a null (not loaded / moved-from)
handle with any non-null name it throws `std::logic_error`; the embedding
is a total function, so no other behaviour (crash) is possible. -/
theorem dylib_C5_null_checks (P : Platform) (st : DylibSt) :
    dylib_get_symbol P st none = .error (.invalid_argument "Null parameter") ∧
    (st.m_handle = none → ∀ name,
      dylib_get_symbol P st (some name) =
        .error (.logic_error "The dynamic library handle is null")) := by
  obtain ⟨mh, mfd⟩ := st
  refine ⟨rfl, ?_⟩
  rintro rfl name
  rfl

/-- C5 witness: both null checks evaluated in the concrete environment
`testP` at the cleared state ⟨none, -1⟩. -/
theorem dylib_C5_null_checks_witness :
    dylib_get_symbol testP ⟨none, -1⟩ none =
      .error (.invalid_argument "Null parameter") ∧
    dylib_get_symbol testP ⟨none, -1⟩ (some "add") =
      .error (.logic_error "The dynamic library handle is null") :=
  ⟨(dylib_C5_null_checks testP ⟨none, -1⟩).1,
   (dylib_C5_null_checks testP ⟨none, -1⟩).2 rfl "add"⟩

/-- C6: `has_symbol` is a total Boolean probe (it never throws): it is
`false` whenever the handle or the name is null, and otherwise equals
exactly whether direct native resolution of the name is non-null — the
equation holds for every environment, so the demangling fallback plays no
part in the result. -/
theorem dylib_C6_has_symbol (P : Platform) (st : DylibSt) (name : Option String) :
    ((st.m_handle = none ∨ name = none) → dylib_has_symbol P st name = false) ∧
    (∀ h n, st.m_handle = some h → name = some n →
      dylib_has_symbol P st name = (P.locate_symbol h n).isSome) := by
  obtain ⟨mh, mfd⟩ := st
  constructor
  · rintro (rfl | rfl)
    · rfl
    · cases mh <;> rfl
  · rintro h n rfl rfl
    rfl

/-- C6 witness: `has_symbol` in `testP` — false at a null handle, false at
a null name, and equal to direct resolution success at handle 4096 for
the exact mangled name. -/
theorem dylib_C6_has_symbol_witness :
    dylib_has_symbol testP ⟨none, 3⟩ (some "mangled_add") = false ∧
    dylib_has_symbol testP ⟨some 4096, 3⟩ none = false ∧
    dylib_has_symbol testP ⟨some 4096, 3⟩ (some "mangled_add") =
      (testP.locate_symbol 4096 "mangled_add").isSome :=
  ⟨(dylib_C6_has_symbol testP ⟨none, 3⟩ (some "mangled_add")).1 (Or.inl rfl),
   (dylib_C6_has_symbol testP ⟨some 4096, 3⟩ none).1 (Or.inr rfl),
   (dylib_C6_has_symbol testP ⟨some 4096, 3⟩ (some "mangled_add")).2
     4096 "mangled_add" rfl rfl⟩

/-- C8: whenever the external symbol-table reader raises a textual error
on the forwarded handle, descriptor and switches, `symbols` re-signals it
to the caller as `symbol_error` carrying that text. -/
theorem dylib_C8_reader_error_wrapped (P : Platform) (st : DylibSt)
    (params : symbol_params) (e : String)
    (hf : P.get_symbols st.m_handle st.m_fd params.demangle params.loadable = .error e) :
    dylib_symbols P st params = .error (.symbol_error e) := by
  simp [dylib_symbols, hf]

/-- C8 witness: in the environment `failP`, whose reader raises
"read failure", `symbols` on a loaded state yields
`symbol_error "read failure"`. -/
theorem dylib_C8_reader_error_witness :
    dylib_symbols failP ⟨some 4096, 3⟩ ⟨false, false⟩ =
      .error (.symbol_error "read failure") :=
  dylib_C8_reader_error_wrapped failP ⟨some 4096, 3⟩ ⟨false, false⟩ "read failure" rfl

/-- C10: `symbols` performs no loaded-handle check — on a null-handle
state it forwards the null handle and the stored descriptor to the
external reader (wrapping only a reader error into `symbol_error`), and
in particular it never throws `std::logic_error`, for every reader
behaviour. -/
theorem dylib_C10_symbols_no_handle_check (P : Platform) (st : DylibSt)
    (params : symbol_params) (hnull : st.m_handle = none) :
    dylib_symbols P st params =
      (match P.get_symbols none st.m_fd params.demangle params.loadable with
       | .ok l => .ok l
       | .error e => .error (.symbol_error e)) ∧
    ∀ msg, dylib_symbols P st params ≠ .error (.logic_error msg) := by
  constructor
  · simp [dylib_symbols, hnull]
  · intro msg
    simp only [dylib_symbols, hnull]
    cases P.get_symbols none st.m_fd params.demangle params.loadable <;> simp

/-- C10 witness: in `testP`, `symbols` on the cleared state ⟨none, 3⟩
returns the reader's list (no `logic_error` is thrown). -/
theorem dylib_C10_symbols_witness :
    dylib_symbols testP ⟨none, 3⟩ ⟨false, false⟩ = .ok ["mangled_add", "junk"] ∧
    dylib_symbols testP ⟨none, 3⟩ ⟨false, false⟩ ≠
      .error (.logic_error "The dynamic library handle is null") := by
  have h := dylib_C10_symbols_no_handle_check testP ⟨none, 3⟩ ⟨false, false⟩ rfl
  exact ⟨h.1.trans rfl, h.2 "The dynamic library handle is null"⟩

/-- C7: for every environment and every non-null directory and name, the
constructor passes exactly one path to the platform loader — in all
outcomes (loader failure, descriptor failure, success) — and that path is
the directory (with a separator appended when the directory is non-empty
and does not already end in one) concatenated with the name, wrapped with
the platform prefix and suffix exactly when decorations are requested. -/
theorem dylib_C7_loader_called_once (P : Platform) (d l : String) (dec : Bool) :
    (dylib_ctor P (some d) (some l) dec).loader_calls =
      [(if d ≠ "" ∧ endsWithSlash d = false then d ++ "/" else d) ++
       (if dec then P.pfx ++ l ++ P.sfx else l)] := by
  have hcomp : compose_path P d l dec =
      (if d ≠ "" ∧ endsWithSlash d = false then d ++ "/" else d) ++
      (if dec then P.pfx ++ l ++ P.sfx else l) := by
    by_cases hd : d = "" <;> by_cases hs : endsWithSlash d = true <;>
      simp [compose_path, hd, hs]
  have hcalls : (dylib_ctor P (some d) (some l) dec).loader_calls =
      [compose_path P d l dec] := by
    simp only [dylib_ctor]
    cases hL : P.open_lib (compose_path P d l dec) <;> simp [hL]
    split <;> rfl
  rw [hcalls, hcomp]

/-- C3: when a loaded handle's direct resolution of a non-null name
returns null, `get_symbol` enumerates the library's symbols and keeps
exactly those passing `symbol_filter` (demangling succeeded and the
demangled form has the requested name as a prefix followed by `'('` or
end-of-string): zero matches throw `symbol_error` with the platform
diagnostic; exactly one match is resolved directly by its mangled name,
throwing `symbol_error` if that secondary resolution is null; two or more
matches throw `symbol_error` stating multiple matches, without picking
one. -/
theorem dylib_C3_fallback_matching (P : Platform) (mfd : Int) (h : Nat) (name : String)
    (hloc : P.locate_symbol h name = none)
    (syms : List String)
    (hread : P.get_symbols (some h) mfd false false = .ok syms) :
    (syms.filter (symbol_filter P name) = [] →
      dylib_get_symbol P ⟨some h, mfd⟩ (some name) =
        .error (.symbol_error ("Could not get symbol '" ++ name ++ "'\n" ++ P.lastError))) ∧
    (∀ m, syms.filter (symbol_filter P name) = [m] →
      dylib_get_symbol P ⟨some h, mfd⟩ (some name) =
        (match P.locate_symbol h m with
         | some addr => .ok addr
         | none =>
           .error (.symbol_error
             ("Could not get symbol '" ++ name ++ "'\n" ++ P.lastError)))) ∧
    (∀ m1 m2 rest, syms.filter (symbol_filter P name) = m1 :: m2 :: rest →
      dylib_get_symbol P ⟨some h, mfd⟩ (some name) =
        .error (.symbol_error
          ("Could not get symbol '" ++ name ++ "': multiple matches"))) := by
  have hbase : dylib_get_symbol P ⟨some h, mfd⟩ (some name) =
      match syms.filter (symbol_filter P name) with
      | [] =>
        .error (.symbol_error ("Could not get symbol '" ++ name ++ "'\n" ++ P.lastError))
      | [m] =>
        (match P.locate_symbol h m with
         | some addr => .ok addr
         | none =>
           .error (.symbol_error
             ("Could not get symbol '" ++ name ++ "'\n" ++ P.lastError)))
      | _ =>
        .error (.symbol_error
          ("Could not get symbol '" ++ name ++ "': multiple matches")) := by
    simp only [dylib_get_symbol, dylib_symbols, default_params, hloc]
    rw [hread]
  refine ⟨?_, ?_, ?_⟩
  · intro hnil
    rw [hbase, hnil]
  · intro m hm
    rw [hbase, hm]
  · intro m1 m2 rest hm
    rw [hbase, hm]

/-- C3 witness: in `testP`, the name `add` does not resolve directly, the
enumeration `["mangled_add", "junk"]` filters to the single match
`mangled_add` (whose demangled form `add(int, int)` has `add` as a prefix
followed by `'('`, while `junk` fails to demangle and is skipped), and
its secondary resolution yields the address 5000. -/
theorem dylib_C3_fallback_witness :
    dylib_get_symbol testP ⟨some 4096, 3⟩ (some "add") = .ok 5000 := by
  have h := (dylib_C3_fallback_matching testP 3 4096 "add" rfl
      ["mangled_add", "junk"] rfl).2.1 "mangled_add" (by decide)
  exact h.trans rfl
